import Mathlib

/-!
Verification development for the MyPMM market-making strategy
(src/my_pmm.py, class MyPMM).

Modelling conventions:
* Python `Decimal` arithmetic is modelled as exact rational arithmetic over ℚ.
* Float literals appearing in the source (0.0001, 0.01, 0.9, 0.7, 0.3) are
  modelled by the exact rational value of the IEEE-754 double they denote,
  because `Decimal(x)` for a float `x` converts the binary value exactly
  (e.g. `Decimal(0.0001)` is 0.0001000000000000000047921736…, not 1/10000).
* Runtime numeric data (prices, RSI, NATR, balances, timestamps) are modelled
  as exact rationals; the spec treats the indicator series as already-computed
  numeric series.
* Side-effecting calls (cancel, buy, sell) are modelled as an emitted action
  trace; the budget checker is an external collaborator and is passed to
  `on_tick` as a function parameter.
* An uncaught Python exception (the IndexError raised by `iloc[-2]` when the
  candle frame has fewer than two rows) is modelled by `Except.error`;
  `on_tick` propagates it, leaving the state unchanged past that point.
-/

namespace MyPMM

/-- Exact rational value of the IEEE-754 double denoted by the literal 0.0001. -/
def f64_0001 : ℚ := 7378697629483821 / 73786976294838206464

/-- Exact rational value of the IEEE-754 double denoted by the literal 0.01. -/
def f64_001 : ℚ := 5764607523034235 / 576460752303423488

/-- Exact rational value of the IEEE-754 double denoted by the literal 0.9. -/
def f64_09 : ℚ := 8106479329266893 / 9007199254740992

/-- Exact rational value of the IEEE-754 double denoted by the literal 0.7. -/
def f64_07 : ℚ := 3152519739159347 / 4503599627370496

/-- Exact rational value of the IEEE-754 double denoted by the literal 0.3. -/
def f64_03 : ℚ := 5404319552844595 / 18014398509481984

/-- Configured base bid spread (`bid_spread = 0.0001`, a float class attribute). -/
def bid_spread : ℚ := f64_0001

/-- Configured base ask spread (`ask_spread = 0.0001`, a float class attribute). -/
def ask_spread : ℚ := f64_0001

/-- Configured refresh interval (`order_refresh_time = 10`). -/
def order_refresh_time : ℚ := 10

/-- Configured order amount (`order_amount = 0.01`, a float class attribute). -/
def order_amount : ℚ := f64_001

/-- Configured trading pair. -/
def trading_pair : String := "ETH-USDT"

/-- Configured exchange connector name. -/
def exchange : String := "binance_paper_trade"

/-- Order side, mirroring `TradeType.BUY` / `TradeType.SELL`. -/
inductive TradeType where
  | buy
  | sell
  deriving DecidableEq, Repr

/-- Order type; the strategy only ever uses `OrderType.LIMIT`. -/
inductive OrderType where
  | limit
  deriving DecidableEq, Repr

/-- Mirrors hummingbot's `OrderCandidate` as used by `create_proposal`. -/
structure OrderCandidate where
  trading_pair : String
  is_maker : Bool
  order_type : OrderType
  order_side : TradeType
  amount : ℚ
  price : ℚ
  deriving DecidableEq, Repr

/-- One row of the candle frame after `get_candles_with_features`:
close price plus the two indicator columns (RSI_30, NATR_30). -/
structure Candle where
  close : ℚ
  rsi : ℚ
  natr : ℚ
  deriving DecidableEq, Repr

/-- One entry of `self.trade_history` as appended by `did_fill_order`. -/
structure TradeRecord where
  timestamp : ℚ
  trade_type : TradeType
  price : ℚ
  deriving DecidableEq, Repr

/-- An open order as seen by `get_active_orders`. -/
structure ActiveOrder where
  trading_pair : String
  client_order_id : String
  deriving DecidableEq, Repr

/-- The strategy state together with the external snapshot it reads during a
tick: timestamps, the candle frame (oldest to newest), open orders, trade
history, the connector mid price and the connector balances. -/
structure BotState where
  current_timestamp : ℚ
  create_timestamp : ℚ
  candles : List Candle
  active_orders : List ActiveOrder
  trade_history : List TradeRecord
  mid_price : ℚ
  base_balance : ℚ
  quote_balance : ℚ
  deriving DecidableEq, Repr

/-- External side effects emitted during a tick: `self.cancel`, `self.buy`,
`self.sell`. -/
inductive Action where
  | cancel (connector_name : String) (trading_pair : String) (client_order_id : String)
  | buy (connector_name : String) (trading_pair : String) (amount : ℚ) (price : ℚ)
  | sell (connector_name : String) (trading_pair : String) (amount : ℚ) (price : ℚ)
  deriving DecidableEq, Repr

/-- The uncaught exception raised inside `create_proposal` when the candle
frame holds fewer than two rows (`iloc[-2]` raises IndexError; the spec's
error taxonomy calls this condition InsufficientData). -/
inductive PmmError where
  | insufficientData
  deriving DecidableEq, Repr

/-- True exactly on the order-submission actions (buy/sell), false on cancels. -/
def is_order_submission : Action → Bool
  | .cancel _ _ _ => false
  | .buy _ _ _ _ => true
  | .sell _ _ _ _ => true

/-- Translation of `MyPMM.get_inventory_ratio` (src/my_pmm.py lines 172-183):
base value over total value, with the zero-total guard returning 0.5. -/
def get_inventory_ratio (base_balance quote_balance price : ℚ) : ℚ :=
  let base_value := base_balance * price
  let total_value := base_value + quote_balance
  if total_value = 0 then 1 / 2 else base_value / total_value

/-- Translation of the bearish-divergence test (line 89):
`rsi < rsi_prev and price > price_prev`. -/
def bearish_divergence (rsi rsi_prev price price_prev : ℚ) : Bool :=
  decide (rsi < rsi_prev) && decide (price > price_prev)

/-- Translation of the bullish-divergence test (line 90):
`rsi > rsi_prev and price < price_prev`. -/
def bullish_divergence (rsi rsi_prev price price_prev : ℚ) : Bool :=
  decide (rsi > rsi_prev) && decide (price < price_prev)

/-- Translation of `spread_multiplier = Decimal(1 + (natr / 100))` (line 84). -/
def volatility_multiplier (natr : ℚ) : ℚ := 1 + natr / 100

/-- Volatility-adjusted spread (lines 85-86): base spread times the multiplier. -/
def vol_spread (base natr : ℚ) : ℚ := base * volatility_multiplier natr

/-- Translation of the inventory-aware skew step (lines 93-96): an if/elif
that multiplies exactly one spread by `Decimal(0.9)` when its condition
fires. Returns the (bid, ask) pair. -/
def apply_inventory_skew (inv_frac : ℚ) (bearish bullish : Bool)
    (bid ask : ℚ) : ℚ × ℚ :=
  if f64_07 < inv_frac ∧ bearish then (bid, ask * f64_09)
  else if inv_frac < f64_03 ∧ bullish then (bid * f64_09, ask)
  else (bid, ask)

/-- Spread computation of `create_proposal` (lines 83-96) as a function of the
inventory fraction and the last two candle rows. -/
def spread_pair (inv_frac rsi rsi_prev price price_prev natr : ℚ) : ℚ × ℚ :=
  apply_inventory_skew inv_frac
    (bearish_divergence rsi rsi_prev price price_prev)
    (bullish_divergence rsi rsi_prev price price_prev)
    (vol_spread MyPMM.bid_spread natr) (vol_spread MyPMM.ask_spread natr)

/-- Order construction of `create_proposal` (lines 98-107): buy at
`ref_price * (1 - bid_spread)`, sell at `ref_price * (1 + ask_spread)`,
both maker limit orders of the configured amount. -/
def proposal_orders (ref_price bs as : ℚ) : List OrderCandidate :=
  let buy_price := ref_price * (1 - bs)
  let sell_price := ref_price * (1 + as)
  [ { trading_pair := MyPMM.trading_pair, is_maker := true, order_type := .limit,
      order_side := .buy, amount := order_amount, price := buy_price },
    { trading_pair := MyPMM.trading_pair, is_maker := true, order_type := .limit,
      order_side := .sell, amount := order_amount, price := sell_price } ]

/-- Translation of `MyPMM.create_proposal` (lines 72-107). The `iloc[-1]` /
`iloc[-2]` accesses read the last two rows of the candle frame; with fewer
than two rows they raise, modelled by `Except.error`. -/
def create_proposal (s : BotState) : Except PmmError (List OrderCandidate) :=
  let ref_price := s.mid_price
  let inv_frac := get_inventory_ratio s.base_balance s.quote_balance s.mid_price
  match s.candles.reverse with
  | cur :: prev :: _ =>
    let sp := spread_pair inv_frac cur.rsi prev.rsi cur.close prev.close cur.natr
    .ok (proposal_orders ref_price sp.1 sp.2)
  | _ => .error .insufficientData

/-- Translation of `MyPMM.place_order` (lines 118-124): a SELL candidate
becomes a sell call, a BUY candidate a buy call. -/
def place_order (connector_name : String) (order : OrderCandidate) : Action :=
  match order.order_side with
  | .sell => .sell connector_name order.trading_pair order.amount order.price
  | .buy => .buy connector_name order.trading_pair order.amount order.price

/-- Translation of `MyPMM.place_orders` (lines 114-116). -/
def place_orders (proposal : List OrderCandidate) : List Action :=
  proposal.map (place_order exchange)

/-- Translation of `MyPMM.cancel_all_orders` (lines 126-128). -/
def cancel_all_orders (s : BotState) : List Action :=
  s.active_orders.map (fun o => .cancel exchange o.trading_pair o.client_order_id)

/-- Translation of `MyPMM.on_tick` (lines 58-64), parameterised by the external
budget checker `clip` (`adjust_candidates` with all_or_none). Returns the new
state, the emitted action trace, and the propagated exception if any. When
`create_proposal` raises, the cancels already issued stay in the trace and
`create_timestamp` is not updated. -/
def on_tick (clip : List OrderCandidate → List OrderCandidate) (s : BotState) :
    BotState × List Action × Option PmmError :=
  if s.create_timestamp ≤ s.current_timestamp then
    let cancels := cancel_all_orders s
    match create_proposal s with
    | .error e => (s, cancels, some e)
    | .ok proposal =>
      let proposal_adjusted := clip proposal
      ({ s with create_timestamp := order_refresh_time + s.current_timestamp },
       cancels ++ place_orders proposal_adjusted, none)
  else (s, [], none)

/-- Translation of `MyPMM.did_fill_order` (lines 130-135): append one record
to the trade history. -/
def did_fill_order (s : BotState) (trade_type : TradeType) (price : ℚ) : BotState :=
  { s with trade_history :=
      s.trade_history ++ [{ timestamp := s.current_timestamp,
                            trade_type := trade_type, price := price }] }

/-- Claim C6: for every pair of consecutive samples, bearish divergence holds
iff momentum strictly decreases while price strictly increases, bullish
divergence holds iff momentum strictly increases while price strictly
decreases, both are false when neither monotone condition holds, and the two
flags are never simultaneously true. -/
theorem divergence_characterisation (rsi rsi_prev price price_prev : ℚ) :
    (bearish_divergence rsi rsi_prev price price_prev = true ↔
       rsi < rsi_prev ∧ price_prev < price) ∧
    (bullish_divergence rsi rsi_prev price price_prev = true ↔
       rsi_prev < rsi ∧ price < price_prev) ∧
    ¬(bearish_divergence rsi rsi_prev price price_prev = true ∧
      bullish_divergence rsi rsi_prev price price_prev = true) ∧
    (¬(rsi < rsi_prev ∧ price_prev < price) →
     ¬(rsi_prev < rsi ∧ price < price_prev) →
       bearish_divergence rsi rsi_prev price price_prev = false ∧
       bullish_divergence rsi rsi_prev price price_prev = false) := by
  refine ⟨?_, ?_, ?_, ?_⟩
  · simp [bearish_divergence]
  · simp [bullish_divergence]
  · rintro ⟨hbe, hbu⟩
    simp [bearish_divergence, bullish_divergence] at hbe hbu
    exact absurd hbu.1 (lt_asymm hbe.1)
  · intro h1 h2
    constructor
    · simp only [bearish_divergence, Bool.and_eq_false_imp]
      simpa using fun ha hb => h1 ⟨ha, hb⟩
    · simp only [bullish_divergence, Bool.and_eq_false_imp]
      simpa using fun ha hb => h2 ⟨ha, hb⟩

/-- Witness for C6 at a concrete candle pair. -/
theorem divergence_characterisation_wit :
    bearish_divergence 0 0 0 0 = false ∧ bullish_divergence 0 0 0 0 = false :=
  (divergence_characterisation 0 0 0 0).2.2.2 (by simp) (by simp)

/-- Claim C7: for a fixed positive base spread, the volatility-adjusted spread
is `base * (1 + volatility/100)`: volatility 0 reproduces the base spread,
volatility 100 doubles it, and the output is strictly monotone in the
volatility input. Both output spreads of the strategy are instances of
`vol_spread` (at the configured bid/ask base spreads). -/
theorem vol_spread_monotone (base v1 v2 : ℚ) (hbase : 0 < base) :
    vol_spread base v1 = base * (1 + v1 / 100) ∧
    vol_spread base 0 = base ∧
    vol_spread base 100 = 2 * base ∧
    (v1 < v2 → vol_spread base v1 < vol_spread base v2) := by
  refine ⟨rfl, by norm_num [vol_spread, volatility_multiplier], ?_, ?_⟩
  · unfold vol_spread volatility_multiplier
    norm_num
    ring
  · intro h
    unfold vol_spread volatility_multiplier
    have h100 : (1 : ℚ) + v1 / 100 < 1 + v2 / 100 := by linarith
    exact mul_lt_mul_of_pos_left h100 hbase

/-- Witness for C7 at base spread 1 and volatilities 3 < 4. -/
theorem vol_spread_monotone_wit :
    vol_spread 1 0 = 1 ∧ vol_spread 1 100 = 2 * 1 ∧ vol_spread 1 3 < vol_spread 1 4 :=
  ⟨(vol_spread_monotone 1 3 4 one_pos).2.1, (vol_spread_monotone 1 3 4 one_pos).2.2.1,
   (vol_spread_monotone 1 3 4 one_pos).2.2.2 (by norm_num)⟩

/-- Claim C8: the inventory tracker returns base value over total value, the
zero-total guard returns the neutral value 0.5, and for non-negative balances
and price the result lies in the closed interval from 0 to 1. -/
theorem inventory_fraction_spec (base_balance quote_balance price : ℚ) :
    (base_balance * price + quote_balance = 0 →
       get_inventory_ratio base_balance quote_balance price = 1 / 2) ∧
    (base_balance * price + quote_balance ≠ 0 →
       get_inventory_ratio base_balance quote_balance price =
         base_balance * price / (base_balance * price + quote_balance)) ∧
    (0 ≤ base_balance → 0 ≤ quote_balance → 0 ≤ price →
       0 ≤ get_inventory_ratio base_balance quote_balance price ∧
       get_inventory_ratio base_balance quote_balance price ≤ 1) := by
  unfold get_inventory_ratio
  refine ⟨fun h => by simp [h], fun h => by simp [h], fun hb hq hp => ?_⟩
  by_cases h : base_balance * price + quote_balance = 0
  · simp [h]
    norm_num
  · simp only [h, if_false]
    have hbv : 0 ≤ base_balance * price := mul_nonneg hb hp
    have htot : 0 < base_balance * price + quote_balance :=
      lt_of_le_of_ne (by linarith) (Ne.symm h)
    constructor
    · exact div_nonneg hbv (le_of_lt htot)
    · rw [div_le_one htot]
      linarith

/-- Witness for C8 at concrete balances. -/
theorem inventory_fraction_spec_wit :
    get_inventory_ratio 0 0 0 = 1 / 2 ∧
    0 ≤ get_inventory_ratio 1 3 2 ∧ get_inventory_ratio 1 3 2 ≤ 1 :=
  ⟨(inventory_fraction_spec 0 0 0).1 (by norm_num),
   ((inventory_fraction_spec 1 3 2).2.2 (by norm_num) (by norm_num) (by norm_num)).1,
   ((inventory_fraction_spec 1 3 2).2.2 (by norm_num) (by norm_num) (by norm_num)).2⟩

/-- Claim C10: the if/elif skew step never changes both spreads — at least one
of the two outputs equals its input — and whenever the ask-side condition
(inventory fraction above the 0.7 threshold and bearish divergence) holds, the
result is exactly the ask-only discount, regardless of the bid-side condition:
the first branch takes priority. -/
theorem skew_at_most_one_side (r : ℚ) (be bu : Bool) (bid ask : ℚ) :
    ((apply_inventory_skew r be bu bid ask).1 = bid ∨
     (apply_inventory_skew r be bu bid ask).2 = ask) ∧
    (f64_07 < r → be = true →
       apply_inventory_skew r be bu bid ask = (bid, ask * f64_09)) := by
  constructor
  · unfold apply_inventory_skew
    split
    · exact Or.inl rfl
    · split
      · exact Or.inr rfl
      · exact Or.inl rfl
  · intro h1 h2
    unfold apply_inventory_skew
    rw [if_pos ⟨h1, h2⟩]

/-- Witness for C10: both skew booleans set, high inventory fraction — only
the ask side is discounted. -/
theorem skew_at_most_one_side_wit :
    apply_inventory_skew 1 true true 5 7 = (5, 7 * f64_09) :=
  (skew_at_most_one_side 1 true true 5 7).2 (by norm_num [f64_07]) rfl

/-- Claim C5: for every reference price and spread pair, the order builder
returns exactly two intents — a buy priced at `ref_price * (1 - bid_spread)`
and a sell priced at `ref_price * (1 + ask_spread)` — and every intent is a
maker-only limit order for the configured amount on the configured pair. -/
theorem proposal_builder_spec (ref bs as : ℚ) :
    (proposal_orders ref bs as).length = 2 ∧
    (proposal_orders ref bs as).map OrderCandidate.price =
      [ref * (1 - bs), ref * (1 + as)] ∧
    (proposal_orders ref bs as).map OrderCandidate.order_side =
      [TradeType.buy, TradeType.sell] ∧
    (proposal_orders ref bs as).all
      (fun o => o.is_maker && decide (o.order_type = OrderType.limit) &&
        decide (o.amount = order_amount) &&
        decide (o.trading_pair = MyPMM.trading_pair)) = true := by
  refine ⟨rfl, rfl, rfl, ?_⟩
  simp [proposal_orders]

/-- State for the C2 scenario: mid price 100, flat RSI (no divergence), zero
NATR (volatility multiplier 1), balanced inventory (fraction 1/2, no skew). -/
def drift_state : BotState :=
  { current_timestamp := 0, create_timestamp := 0,
    candles := [⟨100, 50, 0⟩, ⟨100, 50, 0⟩],
    active_orders := [], trade_history := [],
    mid_price := 100, base_balance := 1, quote_balance := 100 }

/-- Claim C2 (code bug): in the claimed scenario the proposal prices come out
as 100·(1 − Decimal(0.0001)) and 100·(1 + Decimal(0.0001)), which are NOT
99.99 and 100.01, because `Decimal(self.bid_spread)` converts the binary
float 0.0001 exactly, carrying its representation error into the price. -/
theorem decimal_drift_prices :
    create_proposal drift_state =
      Except.ok (proposal_orders 100 MyPMM.bid_spread MyPMM.ask_spread) ∧
    (100 : ℚ) * (1 - MyPMM.bid_spread) ≠ 9999 / 100 ∧
    (100 : ℚ) * (1 + MyPMM.ask_spread) ≠ 10001 / 100 := by
  refine ⟨?_, ?_, ?_⟩
  · unfold create_proposal drift_state
    norm_num [spread_pair, apply_inventory_skew, get_inventory_ratio,
      bearish_divergence, bullish_divergence, vol_spread, volatility_multiplier,
      f64_07, f64_03]
  · norm_num [MyPMM.bid_spread, f64_0001]
  · norm_num [MyPMM.ask_spread, f64_0001]

/-- State for the C3 scenario: inventory fraction 0.8 (base value 200 of
total 250), bearish divergence (RSI falls 60 to 50 while close rises 99 to
100), zero NATR. -/
def skew_state : BotState :=
  { current_timestamp := 0, create_timestamp := 0,
    candles := [⟨99, 60, 0⟩, ⟨100, 50, 0⟩],
    active_orders := [], trade_history := [],
    mid_price := 100, base_balance := 2, quote_balance := 50 }

/-- Claim C3 (code bug): with inventory fraction 0.8 and bearish divergence
the ask spread is multiplied by `Decimal(0.9)` — the exact value of the binary
float 0.9, slightly above 9/10 — so the skewed ask spread is NOT exactly 90%
of its un-skewed value; the bid spread is left at its un-skewed value. -/
theorem skew_discount_inexact :
    create_proposal skew_state =
      Except.ok (proposal_orders 100 MyPMM.bid_spread (MyPMM.ask_spread * f64_09)) ∧
    MyPMM.ask_spread * f64_09 ≠ 9 / 10 * MyPMM.ask_spread := by
  refine ⟨?_, ?_⟩
  · unfold create_proposal skew_state
    norm_num [spread_pair, apply_inventory_skew, get_inventory_ratio,
      bearish_divergence, bullish_divergence, vol_spread, volatility_multiplier,
      f64_07, f64_03]
  · norm_num [MyPMM.ask_spread, f64_0001, f64_09]

/-- State for the C1 counterexample: a single candle sample, a due refresh
timer, and one open order. -/
def short_candle_state : BotState :=
  { current_timestamp := 5, create_timestamp := 0,
    candles := [⟨100, 50, 0⟩],
    active_orders := [⟨"ETH-USDT", "oid-1"⟩], trade_history := [],
    mid_price := 100, base_balance := 1, quote_balance := 100 }

/-- Claim C1 counterexample: with fewer than two candle samples and a due
timer, the tick DOES issue a cancel before the cycle fails — the claim's
"no cancel is issued" is false on this concrete state. -/
theorem insufficient_data_issues_cancel :
    short_candle_state.candles.length < 2 ∧
    short_candle_state.create_timestamp ≤ short_candle_state.current_timestamp ∧
    (on_tick id short_candle_state).2.1 =
      [Action.cancel exchange "ETH-USDT" "oid-1"] := by
  refine ⟨by decide, by decide, rfl⟩

/-- Claim C1 amended: with fewer than two candle samples a due cycle first
cancels all open orders, then fails with InsufficientData: no proposal is
built, no order is submitted, and create_timestamp is left unchanged so the
cycle is retried on the next tick — but the cancel IS issued. -/
theorem insufficient_data_cycle (clip : List OrderCandidate → List OrderCandidate)
    (s : BotState) (hdue : s.create_timestamp ≤ s.current_timestamp)
    (hlen : s.candles.length < 2) :
    on_tick clip s = (s, cancel_all_orders s, some PmmError.insufficientData) := by
  have herr : create_proposal s = Except.error PmmError.insufficientData := by
    rcases hc : s.candles with _ | ⟨a, _ | ⟨b, t⟩⟩
    · simp [create_proposal, hc]
    · simp [create_proposal, hc]
    · rw [hc] at hlen
      simp at hlen
      omega
  unfold on_tick
  rw [if_pos hdue, herr]

/-- Witness for the amended C1 on the concrete one-candle state. -/
theorem insufficient_data_cycle_wit :
    on_tick id short_candle_state =
      (short_candle_state, cancel_all_orders short_candle_state,
       some PmmError.insufficientData) :=
  insufficient_data_cycle id short_candle_state (by decide) (by decide)

/-- State for the C4 counterexample: the timer is due (2 at current time 7)
but the candle series holds a single sample. -/
def stale_candle_state : BotState :=
  { current_timestamp := 7, create_timestamp := 2,
    candles := [⟨101, 40, 1⟩],
    active_orders := [⟨"ETH-USDT", "oid-2"⟩], trade_history := [],
    mid_price := 101, base_balance := 1, quote_balance := 50 }

/-- Claim C4 counterexample: a tick at or after the next-allowed time on which
no full cycle runs — with a single candle sample the tick fails after the
cancel step, nothing is placed, and create_timestamp stays 2 instead of being
set to the current time 7 plus the refresh interval. -/
theorem due_tick_without_full_cycle :
    stale_candle_state.create_timestamp ≤ stale_candle_state.current_timestamp ∧
    on_tick id stale_candle_state =
      (stale_candle_state, cancel_all_orders stale_candle_state,
       some PmmError.insufficientData) ∧
    stale_candle_state.create_timestamp ≠
      stale_candle_state.current_timestamp + order_refresh_time := by
  refine ⟨by norm_num [stale_candle_state], rfl,
    by norm_num [stale_candle_state, order_refresh_time]⟩

/-- Claim C4 amended: a tick strictly before create_timestamp performs no
action and leaves the state unchanged; a tick at or after it with at least two
candle samples runs exactly one full cancel-propose-clip-place cycle — the
trace is the cancels followed by the placements of the clipped proposal — and
sets create_timestamp to the current time plus the refresh interval; a tick at
or after it with fewer than two candle samples cancels, then fails: nothing is
proposed or placed and create_timestamp is unchanged. -/
theorem refresh_cycle_gate (clip : List OrderCandidate → List OrderCandidate)
    (s : BotState) :
    (s.current_timestamp < s.create_timestamp → on_tick clip s = (s, [], none)) ∧
    (s.create_timestamp ≤ s.current_timestamp → 2 ≤ s.candles.length →
      ∃ proposal, create_proposal s = Except.ok proposal ∧
        on_tick clip s =
          ({ s with create_timestamp := s.current_timestamp + order_refresh_time },
           cancel_all_orders s ++ place_orders (clip proposal), none)) ∧
    (s.create_timestamp ≤ s.current_timestamp → s.candles.length < 2 →
      on_tick clip s = (s, cancel_all_orders s, some PmmError.insufficientData)) := by
  refine ⟨?_, ?_, ?_⟩
  · intro h
    unfold on_tick
    rw [if_neg (not_le.mpr h)]
  · intro hdue hlen
    obtain ⟨cur, prev, rest, hr⟩ :
        ∃ cur prev rest, s.candles.reverse = cur :: prev :: rest := by
      rcases hr : s.candles.reverse with _ | ⟨a, _ | ⟨b, t⟩⟩
      · exfalso
        have hL : s.candles.length = 0 := by rw [← List.length_reverse, hr]; rfl
        omega
      · exfalso
        have hL : s.candles.length = 1 := by rw [← List.length_reverse, hr]; rfl
        omega
      · exact ⟨a, b, t, rfl⟩
    have hok : create_proposal s = Except.ok
        (proposal_orders s.mid_price
          (spread_pair (get_inventory_ratio s.base_balance s.quote_balance s.mid_price)
            cur.rsi prev.rsi cur.close prev.close cur.natr).1
          (spread_pair (get_inventory_ratio s.base_balance s.quote_balance s.mid_price)
            cur.rsi prev.rsi cur.close prev.close cur.natr).2) := by
      unfold create_proposal
      rw [hr]
    refine ⟨_, hok, ?_⟩
    unfold on_tick
    rw [if_pos hdue, hok, add_comm s.current_timestamp order_refresh_time]
  · intro hdue hlen
    have herr : create_proposal s = Except.error PmmError.insufficientData := by
      rcases hc : s.candles with _ | ⟨a, _ | ⟨b, t⟩⟩
      · simp [create_proposal, hc]
      · simp [create_proposal, hc]
      · rw [hc] at hlen
        simp at hlen
        omega
    unfold on_tick
    rw [if_pos hdue, herr]

/-- Concrete state whose timer is not yet due. -/
def idle_state : BotState :=
  { current_timestamp := 3, create_timestamp := 10,
    candles := [⟨100, 50, 0⟩, ⟨100, 50, 0⟩],
    active_orders := [], trade_history := [],
    mid_price := 100, base_balance := 1, quote_balance := 100 }

/-- Concrete state whose timer is due, with two candle samples. -/
def due_state : BotState :=
  { current_timestamp := 5, create_timestamp := 0,
    candles := [⟨100, 50, 0⟩, ⟨100, 50, 0⟩],
    active_orders := [], trade_history := [],
    mid_price := 100, base_balance := 1, quote_balance := 100 }

/-- Witness for the amended C4 on concrete idle, due, and due-but-short
states, discharging the hypotheses of all three branches. -/
theorem refresh_cycle_gate_wit :
    on_tick id idle_state = (idle_state, [], none) ∧
    (on_tick id due_state).2.2 = none ∧
    on_tick id stale_candle_state =
      (stale_candle_state, cancel_all_orders stale_candle_state,
       some PmmError.insufficientData) := by
  refine ⟨(refresh_cycle_gate id idle_state).1 (by decide), ?_,
    (refresh_cycle_gate id stale_candle_state).2.2 (by decide) (by decide)⟩
  obtain ⟨p, hp, h⟩ := (refresh_cycle_gate id due_state).2.1 (by decide) (by decide)
  rw [h]

/-- Claim C9: when the budget clipper returns the empty list for a due cycle
(non-error path), the emitted trace contains no order submission, the trade
history is unchanged, and the refresh timer is still advanced by the
configured interval. -/
theorem budget_rejected_cycle (clip : List OrderCandidate → List OrderCandidate)
    (s : BotState) (proposal : List OrderCandidate)
    (hdue : s.create_timestamp ≤ s.current_timestamp)
    (hprop : create_proposal s = Except.ok proposal)
    (hclip : clip proposal = []) :
    (on_tick clip s).2.1.filter is_order_submission = [] ∧
    (on_tick clip s).1.trade_history = s.trade_history ∧
    (on_tick clip s).1.create_timestamp = order_refresh_time + s.current_timestamp := by
  have h : on_tick clip s =
      ({ s with create_timestamp := order_refresh_time + s.current_timestamp },
       cancel_all_orders s, none) := by
    unfold on_tick
    rw [if_pos hdue, hprop]
    simp [hclip, place_orders]
  rw [h]
  refine ⟨?_, rfl, rfl⟩
  simp [cancel_all_orders, List.filter_map, Function.comp, is_order_submission]

/-- The budget clipper that rejects everything. -/
def empty_clip : List OrderCandidate → List OrderCandidate := fun _ => []

/-- Witness for C9 on the concrete due state with the all-rejecting clipper. -/
theorem budget_rejected_cycle_wit :
    (on_tick empty_clip due_state).2.1.filter is_order_submission = [] ∧
    (on_tick empty_clip due_state).1.trade_history = due_state.trade_history := by
  obtain ⟨h1, h2, h3⟩ := budget_rejected_cycle empty_clip due_state _ (by decide) rfl rfl
  exact ⟨h1, h2⟩

end MyPMM
